import Mathlib

/-
Verification of the session/transport management layer of the pinata-mcp
HTTP-hosted server.

The embedding covers:
  * the streamable-HTTP session helper module (`createStreamableTransport`,
    `createAndSetupTransport`, `createAuthChecker`, `handleMCPSession`),
  * the Vercel API route `handler` from `src/api/index.ts`.

Conventions of the shallow embedding:
  * The transport storage object (`TransportStorage`, a plain JS object used
    as a map from session id to transport) is modelled as an association
    list with JS-object semantics (unique keys, assignment overwrites,
    `delete` removes).
  * JS truthiness of an optional string header is modelled by `jsTruthyStr`:
    `undefined` and the empty string are falsy.
  * The SDK predicate `isInitializeRequest` (schema check on the body) is
    modelled by its decisive part, `body.method === "initialize"`, which is
    also exactly the check the Vercel variant performs itself.
  * Callbacks installed on a transport (`onsessioninitialized`, `onclose`)
    are modelled as separate step functions (`sessionInitializedCallback`,
    `oncloseHandler`) because Lean functions are pure; the router installs
    them and the SDK fires them later.
  * `transport.handleRequest` / `transport.handlePostMessage` belong to the
    external SDK; their outcome is an oracle parameter (`HandleOutcome`):
    success, failure before any response headers were sent, or failure
    after the response was already committed.
-/

namespace PinataMCP

/-- A JSON scalar value, rich enough for the JSON-RPC `id` field. -/
inductive JValue where
  | jnull
  | jbool (b : Bool)
  | jnum (n : Int)
  | jstr (s : String)
deriving DecidableEq, Repr

/-- JS truthiness of a JSON value: `null`, `false`, `0` and `""` are falsy. -/
def JValue.truthy : JValue → Bool
  | .jnull => false
  | .jbool b => b
  | .jnum n => decide (n ≠ 0)
  | .jstr s => decide (s ≠ "")

/-- The request body fields the session layer inspects: `method`, `id`, and
whether the JSON object carries any further keys (used only by the Vercel
empty-body check via `Object.keys(req.body).length`). -/
structure RequestBody where
  method : Option String
  id : Option JValue
  hasOtherFields : Bool
deriving DecidableEq, Repr

/-- JS truthiness of an optional string (`undefined` and `""` are falsy). -/
def jsTruthyStr : Option String → Bool
  | none => false
  | some s => decide (s ≠ "")

/-- The session id when it is truthy, `none` otherwise: the guard shape
`sessionId && ...` used throughout the router. -/
def truthySid (sessionId : Option String) : Option String :=
  match sessionId with
  | some s => if s = "" then none else some s
  | none => none

/-- Models `req.body?.id || null`: the id echoed inside every structured
rejection envelope. A falsy id (absent, `null`, `0`, `""`, `false`)
collapses to `null`. -/
def idOrNull : Option RequestBody → JValue
  | none => JValue.jnull
  | some b =>
      match b.id with
      | none => JValue.jnull
      | some v => if v.truthy then v else JValue.jnull

/-- Models the SDK check `isInitializeRequest(req.body)`; its decisive part
is `method === "initialize"` (an absent body never parses). -/
def isInitializeRequest : Option RequestBody → Bool
  | some b => decide (b.method = some "initialize")
  | none => false

/-- Transport storage: the JS object mapping session id to transport,
`export type TransportStorage = { [sessionId: string]: ... }`. -/
abbrev TransportStorage (α : Type) : Type := List (String × α)

/-- Models `createTransportStorage`: a fresh empty map. -/
def createTransportStorage (α : Type) : TransportStorage α := []

/-- Map lookup `transports[sessionId]`. -/
def storeGet {α : Type} : TransportStorage α → String → Option α
  | [], _ => none
  | (k, v) :: rest, s => if k = s then some v else storeGet rest s

/-- Key removal `delete transports[sessionId]`. -/
def storeDelete {α : Type} : TransportStorage α → String → TransportStorage α
  | [], _ => []
  | (k, v) :: rest, s =>
      if k = s then storeDelete rest s else (k, v) :: storeDelete rest s

/-- Assignment `transports[sessionId] = transport` (JS objects hold at most
one entry per key, so assignment overwrites). -/
def storePut {α : Type} (ts : TransportStorage α) (s : String) (v : α) :
    TransportStorage α :=
  (s, v) :: storeDelete ts s

/-- The guard `sessionId && transports[sessionId]`: a live entry is found
only when the header is truthy and the key is present. -/
def lookupLive {α : Type} (ts : TransportStorage α) (sessionId : Option String) :
    Option α :=
  match truthySid sessionId with
  | some s => storeGet ts s
  | none => none

/-- A streamable-HTTP transport, identified by its creation token `tid`
(distinct creations yield distinct objects) with its `_sessionId` field,
which is `none` until forced or until the SDK handshake assigns one. -/
structure Transport where
  tid : Nat
  sessionId : Option String
deriving DecidableEq, Repr

/-- Outcome of the external SDK call `transport.handleRequest(req, res, body)`
(respectively `transport.handlePostMessage` for the SSE variant). -/
inductive HandleOutcome where
  | ok
  | errorBeforeHeaders
  | errorAfterHeaders
deriving DecidableEq, Repr

/-- What `handleMCPSession` did to the HTTP response. -/
inductive SessionAction where
  | rpcError (status : Nat) (code : Int) (message : String) (id : JValue)
  | transportHandled
  | errorLogged
deriving DecidableEq, Repr

/-- Result of one run of `handleMCPSession`: the storage afterwards, the
response action, which transport the body was routed to (if any), and which
transport was newly created (if any). -/
structure SessionResult where
  transports : TransportStorage Transport
  action : SessionAction
  routed : Option Transport
  created : Option Transport
deriving DecidableEq, Repr

/-- The tail of `handleMCPSession`: `await transport.handleRequest(...)`
inside try/catch. On an exception the 500 envelope is written only when
`!res.headersSent`; otherwise the error is only logged. -/
def finishWithTransport (req : Option RequestBody) (ts : TransportStorage Transport)
    (t : Transport) (created : Option Transport) (outcome : HandleOutcome) :
    SessionResult :=
  match outcome with
  | .ok => ⟨ts, .transportHandled, some t, created⟩
  | .errorBeforeHeaders =>
      ⟨ts, .rpcError 500 (-32603) "Internal error processing request" (idOrNull req),
        some t, created⟩
  | .errorAfterHeaders => ⟨ts, .errorLogged, some t, created⟩

/-- Models `createAndSetupTransport(server, transports, sessionId?, onClose?)`:
a fresh transport is created (token `freshTid`, no session id yet); when a
truthy session id is requested, `_sessionId` is forced to it and the
transport is registered eagerly under that exact key. The installed
`onsessioninitialized` and `onclose` closures are modelled by the step
functions `sessionInitializedCallback` and `oncloseHandler` below. -/
def createAndSetupTransport (ts : TransportStorage Transport)
    (sessionId : Option String) (freshTid : Nat) :
    Transport × TransportStorage Transport :=
  match sessionId with
  | some sid =>
      if sid = "" then (⟨freshTid, none⟩, ts)
      else (⟨freshTid, some sid⟩, storePut ts sid ⟨freshTid, some sid⟩)
  | none => (⟨freshTid, none⟩, ts)

/-- The `onsessioninitialized` closure installed by `createStreamableTransport`:
`transports[newSessionId] = transport`. The SDK fires it with the
server-generated id once the initialize handshake completes; registration of
a fresh (unforced) session happens only here, never eagerly. -/
def sessionInitializedCallback (t : Transport) (newSessionId : String)
    (ts : TransportStorage Transport) : TransportStorage Transport :=
  storePut ts newSessionId t

/-- One fired closure emits these observable effects, in order. -/
inductive CloseEvent where
  | deleted (sid : String)
  | cleanup (sid : String)
deriving DecidableEq, Repr

/-- The `transport.onclose` closure: read `transport.sessionId`; when it is
truthy and still registered, delete the entry and only then invoke the
optional external `onClose` cleanup callback. `hasOnClose` records whether a
cleanup callback was provided. The returned event list is the ordered trace
of effects. -/
def oncloseHandler (hasOnClose : Bool) (t : Transport)
    (ts : TransportStorage Transport) :
    TransportStorage Transport × List CloseEvent :=
  match t.sessionId with
  | some sid =>
      if sid = "" then (ts, [])
      else
        match storeGet ts sid with
        | some _ =>
            (storeDelete ts sid,
              .deleted sid :: (if hasOnClose then [.cleanup sid] else []))
        | none => (ts, [])
  | none => (ts, [])

/-- Models the shared auth decision: `checkAuth` of `src/api/index.ts` and
the identical `checkAndRespond` of `createAuthChecker`. The allow-set is the
configured list of API keys; an empty set disables auth; otherwise the guard
`!apiKey || !API_KEYS.has(apiKey)` rejects absent, empty, and non-member
credentials. -/
def checkAuth (apiKeys : List String) (apiKey : Option String) : Bool :=
  if apiKeys.isEmpty then true
  else
    match apiKey with
    | none => false
    | some k => if k = "" then false else decide (k ∈ apiKeys)

/-- An inbound request as seen by `handleMCPSession`: the `mcp-session-id`
header and the parsed JSON body. -/
structure MCPRequest where
  sessionId : Option String
  body : Option RequestBody
deriving DecidableEq, Repr

/-- The session router `handleMCPSession(req, res, server, transports, onSessionClose?)`.
Branches, in source precedence order: reuse a live session; else create on
an initialize body (forced recovery when a truthy session id was supplied,
fresh otherwise); else 404 for a truthy-but-unknown session id; else 400. -/
def handleMCPSession (req : MCPRequest) (ts : TransportStorage Transport)
    (freshTid : Nat) (outcome : HandleOutcome) : SessionResult :=
  match lookupLive ts req.sessionId with
  | some t => finishWithTransport req.body ts t none outcome
  | none =>
      if isInitializeRequest req.body then
        match truthySid req.sessionId with
        | some sid =>
            let p := createAndSetupTransport ts (some sid) freshTid
            finishWithTransport req.body p.2 p.1 (some p.1) outcome
        | none =>
            let p := createAndSetupTransport ts none freshTid
            finishWithTransport req.body p.2 p.1 (some p.1) outcome
      else
        match truthySid req.sessionId with
        | some _ =>
            ⟨ts, .rpcError 404 (-32001)
              "Session not found. Please send an initialize request with the same mcp-session-id header."
              (idOrNull req.body), none, none⟩
        | none =>
            ⟨ts, .rpcError 400 (-32000)
              "Bad Request: Session ID required or send initialize request"
              (idOrNull req.body), none, none⟩

/-- An inbound request as seen by the Vercel route `handler`: HTTP method,
`x-api-key` header, `mcp-session-id` header and parsed JSON body. -/
structure ApiRequest where
  httpMethod : String
  apiKey : Option String
  sessionId : Option String
  body : Option RequestBody
deriving DecidableEq, Repr

/-- Serverless state of the Vercel route: the module-level `transports` and
`servers` maps. SSE transports and server instances are identified by their
creation token. -/
structure ApiState where
  transports : TransportStorage Nat
  servers : TransportStorage Nat
deriving DecidableEq, Repr

/-- What the Vercel `handler` wrote to the HTTP response. -/
inductive ApiAction where
  | statusOk
  | plainError (status : Nat) (error : String) (message : String)
  | rpcError (status : Nat) (code : Int) (message : String) (id : JValue)
  | transportHandled
  | errorLogged
deriving DecidableEq, Repr

/-- Result of one run of the Vercel `handler` (or of its session phase). -/
structure ApiResult where
  state : ApiState
  action : ApiAction
  routed : Option Nat
  created : Option Nat
deriving DecidableEq, Repr

/-- Models `req.body?.method` of the Vercel route. -/
def bodyMethod : Option RequestBody → Option String
  | some b => b.method
  | none => none

/-- The Vercel empty-body guard
`!req.body || Object.keys(req.body).length === 0`. -/
def emptyBody : Option RequestBody → Bool
  | none => true
  | some b => b.method.isNone && b.id.isNone && !b.hasOtherFields

/-- The tail of the session phase: `await transport.handlePostMessage(req.body, res)`
inside try/catch, with the 500 envelope written only when
`!res.headersSent`. -/
def apiFinish (req : Option RequestBody) (st : ApiState) (tid : Nat)
    (created : Option Nat) (outcome : HandleOutcome) : ApiResult :=
  match outcome with
  | .ok => ⟨st, .transportHandled, some tid, created⟩
  | .errorBeforeHeaders =>
      ⟨st, .rpcError 500 (-32603) "Internal error processing request" (idOrNull req),
        some tid, created⟩
  | .errorAfterHeaders => ⟨st, .errorLogged, some tid, created⟩

/-- The session-management phase of the Vercel `handler` (its body past the
preliminary checks). Branches in source order: reuse a live session; else on
`method === "initialize"` create a transport and server (registered eagerly
only when a truthy session id was supplied); else 404 for a truthy-but-unknown
session id; else 400. The `onclose` closure installed on this path deletes
both map entries for the captured session id and is modelled by
`apiOncloseHandler`. -/
def sessionPhase (req : ApiRequest) (st : ApiState) (freshTid : Nat)
    (outcome : HandleOutcome) : ApiResult :=
  match lookupLive st.transports req.sessionId with
  | some tid => apiFinish req.body st tid none outcome
  | none =>
      if bodyMethod req.body = some "initialize" then
        match truthySid req.sessionId with
        | some sid =>
            apiFinish req.body
              ⟨storePut st.transports sid freshTid, storePut st.servers sid freshTid⟩
              freshTid (some freshTid) outcome
        | none => apiFinish req.body st freshTid (some freshTid) outcome
      else
        match truthySid req.sessionId with
        | some _ =>
            ⟨st, .rpcError 404 (-32001)
              "Session not found. Please send an initialize request with the same mcp-session-id header."
              (idOrNull req.body), none, none⟩
        | none =>
            ⟨st, .rpcError 400 (-32000)
              "Bad Request: Session ID required or send initialize request"
              (idOrNull req.body), none, none⟩

/-- The `onclose` closure installed by the Vercel route on a newly created
session: with the captured `sessionId`, when truthy, delete the `transports`
and `servers` entries unconditionally (no existence guard, no external
cleanup callback in this variant). -/
def apiOncloseHandler (sessionId : Option String) (st : ApiState) : ApiState :=
  match truthySid sessionId with
  | some sid => ⟨storeDelete st.transports sid, storeDelete st.servers sid⟩
  | none => st

/-- The Vercel route `handler(req, res)`: GET requests are health checks;
then the `PINATA_JWT` guard, the authentication gate, the empty-body guard,
and finally the session phase. `jwt` is the `PINATA_JWT` environment value
and `apiKeys` the configured allow-set. -/
def handler (jwt : Option String) (apiKeys : List String) (req : ApiRequest)
    (st : ApiState) (freshTid : Nat) (outcome : HandleOutcome) : ApiResult :=
  if req.httpMethod = "GET" then ⟨st, .statusOk, none, none⟩
  else if !jsTruthyStr jwt then
    ⟨st, .plainError 500 "Server not initialized"
      "PINATA_JWT environment variable is required", none, none⟩
  else if !checkAuth apiKeys req.apiKey then
    ⟨st, .plainError 401 "Unauthorized" "Invalid or missing API key", none, none⟩
  else if emptyBody req.body then
    ⟨st, .plainError 400 "Bad Request"
      "Request body is required for MCP protocol", none, none⟩
  else sessionPhase req st freshTid outcome

/-- The condition under which `handleMCPSession` resolves a transport and
delegates message handling to it (branches 1 and 2 of the router). -/
def resolvesTransport (req : MCPRequest) (ts : TransportStorage Transport) : Bool :=
  (lookupLive ts req.sessionId).isSome || isInitializeRequest req.body

/-- The analogous condition for the Vercel session phase. -/
def apiResolvesTransport (req : ApiRequest) (st : ApiState) : Bool :=
  (lookupLive st.transports req.sessionId).isSome ||
    decide (bodyMethod req.body = some "initialize")

theorem storeGet_storePut_self {α : Type} (ts : TransportStorage α) (s : String)
    (v : α) : storeGet (storePut ts s v) s = some v := by
  simp [storePut, storeGet]

theorem storeGet_storeDelete_self {α : Type} (ts : TransportStorage α)
    (s : String) : storeGet (storeDelete ts s) s = none := by
  induction ts with
  | nil => rfl
  | cons p rest ih =>
      obtain ⟨k, v⟩ := p
      by_cases h : k = s
      · simpa [storeDelete, h] using ih
      · simp [storeDelete, storeGet, h, ih]

/-- C7: for every presented credential (including absent), an empty allow-set
authenticates; a non-empty allow-set authenticates exactly the non-empty
credentials that are members of the set. -/
theorem C7_auth_gate_decision (keys : List String) (cred : Option String) :
    (keys = [] → checkAuth keys cred = true) ∧
    (keys ≠ [] →
      (checkAuth keys cred = true ↔ ∃ k, cred = some k ∧ k ≠ "" ∧ k ∈ keys)) := by
  constructor
  · intro h
    simp [checkAuth, h]
  · intro h
    cases cred with
    | none => simp [checkAuth, h]
    | some k =>
        by_cases hk : k = ""
        · simp [checkAuth, h, hk]
        · simp [checkAuth, h, hk]

/-- C7 witness: concrete gate decisions obtained from the theorem. -/
theorem C7_auth_gate_decision_witness :
    checkAuth [] none = true ∧ checkAuth ["k1"] (some "k1") = true ∧
      checkAuth ["k1"] (some "k2") = false :=
  ⟨(C7_auth_gate_decision [] none).1 rfl,
   ((C7_auth_gate_decision ["k1"] (some "k1")).2 (by decide)).mpr
     ⟨"k1", rfl, by decide, by decide⟩,
   by decide⟩

/-- C8: every non-GET request with the upstream credential configured that
the authentication gate rejects is answered with the 401 JSON error body,
and the handler performs no session work: the state is unchanged and no
session is created. -/
theorem C8_auth_failure_frame (jwt : String) (keys : List String)
    (req : ApiRequest) (st : ApiState) (ftid : Nat) (o : HandleOutcome)
    (hm : req.httpMethod ≠ "GET") (hj : jwt ≠ "")
    (ha : checkAuth keys req.apiKey = false) :
    handler (some jwt) keys req st ftid o =
      ⟨st, .plainError 401 "Unauthorized" "Invalid or missing API key",
        none, none⟩ := by
  simp [handler, hm, jsTruthyStr, hj, ha]

/-- C8 witness: allow-set containing only k1, credential k2. -/
theorem C8_auth_failure_frame_witness :
    handler (some "jwt") ["k1"]
        ⟨"POST", some "k2", some "sid", some ⟨some "tools/list", some (.jnum 3), true⟩⟩
        ⟨[("live", 0)], [("live", 0)]⟩ 7 .ok =
      ⟨⟨[("live", 0)], [("live", 0)]⟩,
        .plainError 401 "Unauthorized" "Invalid or missing API key", none, none⟩ :=
  C8_auth_failure_frame "jwt" ["k1"]
    ⟨"POST", some "k2", some "sid", some ⟨some "tools/list", some (.jnum 3), true⟩⟩
    ⟨[("live", 0)], [("live", 0)]⟩ 7 .ok (by decide) (by decide) (by decide)

theorem bodyMethod_ne_of_not_init (b : Option RequestBody)
    (h : isInitializeRequest b = false) : bodyMethod b ≠ some "initialize" := by
  cases b with
  | none => simp [bodyMethod]
  | some b => simpa [isInitializeRequest, bodyMethod] using h

/-- C1: a request whose session identifier has a live store entry is routed
to that stored transport, whatever its method (the reuse branch precedes the
initialize check), the store is not mutated, and no transport is created.
Holds for both the streamable-HTTP router and the Vercel session phase. -/
theorem C1_reuse_routes_to_stored_transport
    (req : MCPRequest) (ts : TransportStorage Transport) (ftid : Nat)
    (o : HandleOutcome) (t : Transport)
    (h : lookupLive ts req.sessionId = some t)
    (areq : ApiRequest) (ast : ApiState) (atid : Nat) (ao : HandleOutcome)
    (n : Nat) (h2 : lookupLive ast.transports areq.sessionId = some n) :
    (handleMCPSession req ts ftid o).transports = ts ∧
    (handleMCPSession req ts ftid o).routed = some t ∧
    (handleMCPSession req ts ftid o).created = none ∧
    (sessionPhase areq ast atid ao).state = ast ∧
    (sessionPhase areq ast atid ao).routed = some n ∧
    (sessionPhase areq ast atid ao).created = none := by
  cases o <;> cases ao <;>
    simp [handleMCPSession, sessionPhase, h, h2, finishWithTransport, apiFinish]

/-- C1 witness: a live entry is reused even for an initialize body. -/
theorem C1_reuse_routes_to_stored_transport_witness :
    (handleMCPSession ⟨some "s", some ⟨some "initialize", some (.jnum 1), true⟩⟩
        [("s", ⟨0, some "s"⟩)] 9 .ok).transports = [("s", ⟨0, some "s"⟩)] ∧
    (handleMCPSession ⟨some "s", some ⟨some "initialize", some (.jnum 1), true⟩⟩
        [("s", ⟨0, some "s"⟩)] 9 .ok).routed = some ⟨0, some "s"⟩ ∧
    (handleMCPSession ⟨some "s", some ⟨some "initialize", some (.jnum 1), true⟩⟩
        [("s", ⟨0, some "s"⟩)] 9 .ok).created = none ∧
    (sessionPhase ⟨"POST", none, some "v", some ⟨some "tools/list", some (.jnum 2), true⟩⟩
        ⟨[("v", 4)], [("v", 4)]⟩ 9 .ok).state = ⟨[("v", 4)], [("v", 4)]⟩ ∧
    (sessionPhase ⟨"POST", none, some "v", some ⟨some "tools/list", some (.jnum 2), true⟩⟩
        ⟨[("v", 4)], [("v", 4)]⟩ 9 .ok).routed = some 4 ∧
    (sessionPhase ⟨"POST", none, some "v", some ⟨some "tools/list", some (.jnum 2), true⟩⟩
        ⟨[("v", 4)], [("v", 4)]⟩ 9 .ok).created = none :=
  C1_reuse_routes_to_stored_transport
    ⟨some "s", some ⟨some "initialize", some (.jnum 1), true⟩⟩
    [("s", ⟨0, some "s"⟩)] 9 .ok ⟨0, some "s"⟩ (by decide)
    ⟨"POST", none, some "v", some ⟨some "tools/list", some (.jnum 2), true⟩⟩
    ⟨[("v", 4)], [("v", 4)]⟩ 9 .ok 4 (by decide)

/-- C2: a truthy session identifier with no store entry and a non-initialize
body yields the 404 response with JSON-RPC code -32001, with no store
mutation and no transport work, in both variants. -/
theorem C2_unknown_session_404
    (req : MCPRequest) (ts : TransportStorage Transport) (ftid : Nat)
    (o : HandleOutcome) (s : String)
    (h1 : req.sessionId = some s) (hs : s ≠ "") (h2 : storeGet ts s = none)
    (h3 : isInitializeRequest req.body = false)
    (areq : ApiRequest) (ast : ApiState) (atid : Nat) (ao : HandleOutcome)
    (s2 : String) (g1 : areq.sessionId = some s2) (gs : s2 ≠ "")
    (g2 : storeGet ast.transports s2 = none)
    (g3 : isInitializeRequest areq.body = false) :
    handleMCPSession req ts ftid o =
      ⟨ts, .rpcError 404 (-32001)
        "Session not found. Please send an initialize request with the same mcp-session-id header."
        (idOrNull req.body), none, none⟩ ∧
    sessionPhase areq ast atid ao =
      ⟨ast, .rpcError 404 (-32001)
        "Session not found. Please send an initialize request with the same mcp-session-id header."
        (idOrNull areq.body), none, none⟩ := by
  constructor
  · simp [handleMCPSession, lookupLive, truthySid, h1, hs, h2, h3]
  · simp [sessionPhase, lookupLive, truthySid, g1, gs, g2,
      bodyMethod_ne_of_not_init _ g3]

/-- C2 witness: spec scenario 2, the ghost session with a tools/list body. -/
theorem C2_unknown_session_404_witness :
    handleMCPSession ⟨some "ghost", some ⟨some "tools/list", some (.jnum 2), true⟩⟩
        [] 0 .ok =
      ⟨[], .rpcError 404 (-32001)
        "Session not found. Please send an initialize request with the same mcp-session-id header."
        (.jnum 2), none, none⟩ ∧
    sessionPhase ⟨"POST", none, some "ghost", some ⟨some "tools/list", some (.jnum 2), true⟩⟩
        ⟨[], []⟩ 0 .ok =
      ⟨⟨[], []⟩, .rpcError 404 (-32001)
        "Session not found. Please send an initialize request with the same mcp-session-id header."
        (.jnum 2), none, none⟩ :=
  C2_unknown_session_404
    ⟨some "ghost", some ⟨some "tools/list", some (.jnum 2), true⟩⟩ [] 0 .ok
    "ghost" rfl (by decide) rfl (by decide)
    ⟨"POST", none, some "ghost", some ⟨some "tools/list", some (.jnum 2), true⟩⟩
    ⟨[], []⟩ 0 .ok "ghost" rfl (by decide) rfl (by decide)

/-- C3: no session identifier and a non-initialize body yields the 400
response with JSON-RPC code -32000, with no store mutation and no transport
work, in both variants. -/
theorem C3_sessionless_400
    (req : MCPRequest) (ts : TransportStorage Transport) (ftid : Nat)
    (o : HandleOutcome)
    (h1 : req.sessionId = none) (h3 : isInitializeRequest req.body = false)
    (areq : ApiRequest) (ast : ApiState) (atid : Nat) (ao : HandleOutcome)
    (g1 : areq.sessionId = none) (g3 : isInitializeRequest areq.body = false) :
    handleMCPSession req ts ftid o =
      ⟨ts, .rpcError 400 (-32000)
        "Bad Request: Session ID required or send initialize request"
        (idOrNull req.body), none, none⟩ ∧
    sessionPhase areq ast atid ao =
      ⟨ast, .rpcError 400 (-32000)
        "Bad Request: Session ID required or send initialize request"
        (idOrNull areq.body), none, none⟩ := by
  constructor
  · simp [handleMCPSession, lookupLive, truthySid, h1, h3]
  · simp [sessionPhase, lookupLive, truthySid, g1,
      bodyMethod_ne_of_not_init _ g3]

/-- C3 witness: spec scenario 3, a sessionless tools/call body. -/
theorem C3_sessionless_400_witness :
    handleMCPSession ⟨none, some ⟨some "tools/call", some (.jnum 3), true⟩⟩
        [] 0 .ok =
      ⟨[], .rpcError 400 (-32000)
        "Bad Request: Session ID required or send initialize request"
        (.jnum 3), none, none⟩ ∧
    sessionPhase ⟨"POST", none, none, some ⟨some "tools/call", some (.jnum 3), true⟩⟩
        ⟨[], []⟩ 0 .ok =
      ⟨⟨[], []⟩, .rpcError 400 (-32000)
        "Bad Request: Session ID required or send initialize request"
        (.jnum 3), none, none⟩ :=
  C3_sessionless_400
    ⟨none, some ⟨some "tools/call", some (.jnum 3), true⟩⟩ [] 0 .ok rfl (by decide)
    ⟨"POST", none, none, some ⟨some "tools/call", some (.jnum 3), true⟩⟩
    ⟨[], []⟩ 0 .ok rfl (by decide)

theorem finishWithTransport_transports (b : Option RequestBody)
    (ts : TransportStorage Transport) (t : Transport) (c : Option Transport)
    (o : HandleOutcome) : (finishWithTransport b ts t c o).transports = ts := by
  cases o <;> rfl

theorem finishWithTransport_routed (b : Option RequestBody)
    (ts : TransportStorage Transport) (t : Transport) (c : Option Transport)
    (o : HandleOutcome) : (finishWithTransport b ts t c o).routed = some t := by
  cases o <;> rfl

theorem finishWithTransport_created (b : Option RequestBody)
    (ts : TransportStorage Transport) (t : Transport) (c : Option Transport)
    (o : HandleOutcome) : (finishWithTransport b ts t c o).created = c := by
  cases o <;> rfl

theorem handleMCPSession_reuse (req : MCPRequest) (ts : TransportStorage Transport)
    (ftid : Nat) (o : HandleOutcome) (t : Transport)
    (h : lookupLive ts req.sessionId = some t) :
    handleMCPSession req ts ftid o = finishWithTransport req.body ts t none o := by
  simp [handleMCPSession, h]

theorem handleMCPSession_forced (req : MCPRequest) (ts : TransportStorage Transport)
    (ftid : Nat) (o : HandleOutcome) (s : String)
    (h1 : req.sessionId = some s) (hs : s ≠ "") (h2 : storeGet ts s = none)
    (h3 : isInitializeRequest req.body = true) :
    handleMCPSession req ts ftid o =
      finishWithTransport req.body (storePut ts s ⟨ftid, some s⟩) ⟨ftid, some s⟩
        (some ⟨ftid, some s⟩) o := by
  simp [handleMCPSession, lookupLive, truthySid, h1, hs, h2, h3,
    createAndSetupTransport]

theorem handleMCPSession_fresh (req : MCPRequest) (ts : TransportStorage Transport)
    (ftid : Nat) (o : HandleOutcome)
    (h1 : req.sessionId = none) (h3 : isInitializeRequest req.body = true) :
    handleMCPSession req ts ftid o =
      finishWithTransport req.body ts ⟨ftid, none⟩ (some ⟨ftid, none⟩) o := by
  simp [handleMCPSession, lookupLive, truthySid, h1, h3, createAndSetupTransport]

/-- C4: an initialize request carrying a session identifier unknown to the
store creates a transport whose identity is forced to exactly that
identifier and registers it in the store under that exact key; a second
identical request is served by the reuse branch: it is routed to the stored
transport, creates nothing, and leaves the store unchanged. -/
theorem C4_forced_recovery_idempotent
    (req : MCPRequest) (ts : TransportStorage Transport) (ftid ftid2 : Nat)
    (o o2 : HandleOutcome) (s : String)
    (h1 : req.sessionId = some s) (hs : s ≠ "") (h2 : storeGet ts s = none)
    (h3 : isInitializeRequest req.body = true) :
    (handleMCPSession req ts ftid o).created = some ⟨ftid, some s⟩ ∧
    (handleMCPSession req ts ftid o).routed = some ⟨ftid, some s⟩ ∧
    storeGet (handleMCPSession req ts ftid o).transports s = some ⟨ftid, some s⟩ ∧
    (handleMCPSession req (handleMCPSession req ts ftid o).transports ftid2 o2).routed =
      some ⟨ftid, some s⟩ ∧
    (handleMCPSession req (handleMCPSession req ts ftid o).transports ftid2 o2).created =
      none ∧
    (handleMCPSession req (handleMCPSession req ts ftid o).transports ftid2 o2).transports =
      (handleMCPSession req ts ftid o).transports := by
  have e1 := handleMCPSession_forced req ts ftid o s h1 hs h2 h3
  have hget : storeGet (handleMCPSession req ts ftid o).transports s =
      some ⟨ftid, some s⟩ := by
    rw [e1, finishWithTransport_transports]
    exact storeGet_storePut_self ts s ⟨ftid, some s⟩
  have hlook2 : lookupLive (handleMCPSession req ts ftid o).transports req.sessionId =
      some ⟨ftid, some s⟩ := by
    simp [lookupLive, truthySid, h1, hs, hget]
  have e2 := handleMCPSession_reuse req (handleMCPSession req ts ftid o).transports
    ftid2 o2 ⟨ftid, some s⟩ hlook2
  refine ⟨?_, ?_, hget, ?_, ?_, ?_⟩
  · rw [e1, finishWithTransport_created]
  · rw [e1, finishWithTransport_routed]
  · rw [e2, finishWithTransport_routed]
  · rw [e2, finishWithTransport_created]
  · rw [e2, finishWithTransport_transports]

/-- C4 witness: forced recovery of session id s from an empty store, run
twice. -/
theorem C4_forced_recovery_idempotent_witness :
    (handleMCPSession ⟨some "s", some ⟨some "initialize", some (.jnum 1), true⟩⟩
        [] 5 .ok).created = some ⟨5, some "s"⟩ ∧
    (handleMCPSession ⟨some "s", some ⟨some "initialize", some (.jnum 1), true⟩⟩
        [] 5 .ok).routed = some ⟨5, some "s"⟩ ∧
    storeGet (handleMCPSession ⟨some "s", some ⟨some "initialize", some (.jnum 1), true⟩⟩
        [] 5 .ok).transports "s" = some ⟨5, some "s"⟩ ∧
    (handleMCPSession ⟨some "s", some ⟨some "initialize", some (.jnum 1), true⟩⟩
        (handleMCPSession ⟨some "s", some ⟨some "initialize", some (.jnum 1), true⟩⟩
          [] 5 .ok).transports 6 .ok).routed = some ⟨5, some "s"⟩ ∧
    (handleMCPSession ⟨some "s", some ⟨some "initialize", some (.jnum 1), true⟩⟩
        (handleMCPSession ⟨some "s", some ⟨some "initialize", some (.jnum 1), true⟩⟩
          [] 5 .ok).transports 6 .ok).created = none ∧
    (handleMCPSession ⟨some "s", some ⟨some "initialize", some (.jnum 1), true⟩⟩
        (handleMCPSession ⟨some "s", some ⟨some "initialize", some (.jnum 1), true⟩⟩
          [] 5 .ok).transports 6 .ok).transports =
      (handleMCPSession ⟨some "s", some ⟨some "initialize", some (.jnum 1), true⟩⟩
        [] 5 .ok).transports :=
  C4_forced_recovery_idempotent
    ⟨some "s", some ⟨some "initialize", some (.jnum 1), true⟩⟩ [] 5 6 .ok .ok
    "s" rfl (by decide) rfl (by decide)

/-- C5: a sessionless initialize request creates a fresh transport with no
identity yet and performs no eager store registration; once the transport
fires its session-initialized callback with the server-generated identifier,
the store maps exactly that identifier to the transport, and a following
request presenting it is routed to the same transport with no further
mutation. -/
theorem C5_fresh_session_deferred_registration
    (req : MCPRequest) (ts : TransportStorage Transport) (ftid ftid2 : Nat)
    (o o2 : HandleOutcome) (genId : String) (req2 : MCPRequest)
    (h1 : req.sessionId = none) (h3 : isInitializeRequest req.body = true)
    (hg : genId ≠ "") (h4 : req2.sessionId = some genId) :
    (handleMCPSession req ts ftid o).created = some ⟨ftid, none⟩ ∧
    (handleMCPSession req ts ftid o).transports = ts ∧
    storeGet (sessionInitializedCallback ⟨ftid, none⟩ genId ts) genId =
      some ⟨ftid, none⟩ ∧
    (handleMCPSession req2 (sessionInitializedCallback ⟨ftid, none⟩ genId ts)
        ftid2 o2).routed = some ⟨ftid, none⟩ ∧
    (handleMCPSession req2 (sessionInitializedCallback ⟨ftid, none⟩ genId ts)
        ftid2 o2).transports =
      sessionInitializedCallback ⟨ftid, none⟩ genId ts := by
  have hget : storeGet (sessionInitializedCallback ⟨ftid, none⟩ genId ts) genId =
      some ⟨ftid, none⟩ := storeGet_storePut_self ts genId ⟨ftid, none⟩
  have hlook2 : lookupLive (sessionInitializedCallback ⟨ftid, none⟩ genId ts)
      req2.sessionId = some ⟨ftid, none⟩ := by
    simp [lookupLive, truthySid, h4, hg, hget]
  have e1 := handleMCPSession_fresh req ts ftid o h1 h3
  have e2 := handleMCPSession_reuse req2 (sessionInitializedCallback ⟨ftid, none⟩ genId ts)
    ftid2 o2 ⟨ftid, none⟩ hlook2
  refine ⟨?_, ?_, hget, ?_, ?_⟩
  · rw [e1, finishWithTransport_created]
  · rw [e1, finishWithTransport_transports]
  · rw [e2, finishWithTransport_routed]
  · rw [e2, finishWithTransport_transports]

/-- C5 witness: spec scenario 1 followed by a tools/list call under the
generated identifier. -/
theorem C5_fresh_session_deferred_registration_witness :
    (handleMCPSession ⟨none, some ⟨some "initialize", some (.jnum 1), true⟩⟩
        [] 5 .ok).created = some ⟨5, none⟩ ∧
    (handleMCPSession ⟨none, some ⟨some "initialize", some (.jnum 1), true⟩⟩
        [] 5 .ok).transports = [] ∧
    storeGet (sessionInitializedCallback ⟨5, none⟩ "gen-uuid" []) "gen-uuid" =
      some ⟨5, none⟩ ∧
    (handleMCPSession ⟨some "gen-uuid", some ⟨some "tools/list", some (.jnum 2), true⟩⟩
        (sessionInitializedCallback ⟨5, none⟩ "gen-uuid" []) 6 .ok).routed =
      some ⟨5, none⟩ ∧
    (handleMCPSession ⟨some "gen-uuid", some ⟨some "tools/list", some (.jnum 2), true⟩⟩
        (sessionInitializedCallback ⟨5, none⟩ "gen-uuid" []) 6 .ok).transports =
      sessionInitializedCallback ⟨5, none⟩ "gen-uuid" [] :=
  C5_fresh_session_deferred_registration
    ⟨none, some ⟨some "initialize", some (.jnum 1), true⟩⟩ [] 5 6 .ok .ok
    "gen-uuid" ⟨some "gen-uuid", some ⟨some "tools/list", some (.jnum 2), true⟩⟩
    rfl (by decide) (by decide) rfl

/-- C6: firing a transport's closure handler twice removes the store entry at
most once and invokes the optional cleanup callback at most once: the second
firing emits no effects and leaves the store untouched; and whenever the
first firing emits anything, the deletion event strictly precedes the
cleanup event and the returned store already lacks the entry — so a failure
inside the cleanup callback cannot prevent store removal. -/
theorem C6_closure_idempotent (hasCb : Bool) (t : Transport)
    (ts : TransportStorage Transport) :
    (oncloseHandler hasCb t (oncloseHandler hasCb t ts).1).2 = [] ∧
    (oncloseHandler hasCb t (oncloseHandler hasCb t ts).1).1 =
      (oncloseHandler hasCb t ts).1 ∧
    ((oncloseHandler hasCb t ts).2 = [] ∨
      ∃ sid, t.sessionId = some sid ∧
        storeGet (oncloseHandler hasCb t ts).1 sid = none ∧
        (oncloseHandler hasCb t ts).2 =
          CloseEvent.deleted sid ::
            (if hasCb then [CloseEvent.cleanup sid] else [])) := by
  cases hsid : t.sessionId with
  | none => simp [oncloseHandler, hsid]
  | some sid =>
      by_cases hs : sid = ""
      · simp [oncloseHandler, hsid, hs]
      · cases hget : storeGet ts sid with
        | none => simp [oncloseHandler, hsid, hs, hget]
        | some tv =>
            have hdel := storeGet_storeDelete_self ts sid
            refine ⟨?_, ?_, Or.inr ⟨sid, rfl, ?_, ?_⟩⟩ <;>
              simp [oncloseHandler, hsid, hs, hget, hdel]

theorem handleMCPSession_action_on_error (req : MCPRequest)
    (ts : TransportStorage Transport) (ftid : Nat)
    (h : resolvesTransport req ts = true) :
    (handleMCPSession req ts ftid .errorBeforeHeaders).action =
      .rpcError 500 (-32603) "Internal error processing request"
        (idOrNull req.body) ∧
    (handleMCPSession req ts ftid .errorAfterHeaders).action = .errorLogged := by
  unfold resolvesTransport at h
  cases hl : lookupLive ts req.sessionId with
  | some t =>
      constructor <;> rw [handleMCPSession_reuse req ts ftid _ t hl] <;> rfl
  | none =>
      rw [hl] at h
      simp at h
      cases htr : truthySid req.sessionId with
      | some sid =>
          constructor <;>
            simp [handleMCPSession, hl, h, htr, finishWithTransport,
              createAndSetupTransport]
      | none =>
          constructor <;>
            simp [handleMCPSession, hl, h, htr, finishWithTransport,
              createAndSetupTransport]

theorem sessionPhase_action_on_error (req : ApiRequest) (st : ApiState)
    (ftid : Nat) (h : apiResolvesTransport req st = true) :
    (sessionPhase req st ftid .errorBeforeHeaders).action =
      .rpcError 500 (-32603) "Internal error processing request"
        (idOrNull req.body) ∧
    (sessionPhase req st ftid .errorAfterHeaders).action = .errorLogged := by
  unfold apiResolvesTransport at h
  cases hl : lookupLive st.transports req.sessionId with
  | some tid => constructor <;> simp [sessionPhase, hl, apiFinish]
  | none =>
      rw [hl] at h
      simp at h
      cases htr : truthySid req.sessionId with
      | some sid => constructor <;> simp [sessionPhase, hl, h, htr, apiFinish]
      | none => constructor <;> simp [sessionPhase, hl, h, htr, apiFinish]

/-- C9: whenever the router has resolved a transport and the delegated
message handling throws, the 500 envelope with JSON-RPC code -32603 is
written exactly when no response headers have been sent; if the response was
already committed the error is only logged and nothing is written. Holds
for both variants. -/
theorem C9_committed_response_safety (req : MCPRequest)
    (ts : TransportStorage Transport) (ftid : Nat)
    (h : resolvesTransport req ts = true)
    (areq : ApiRequest) (ast : ApiState) (atid : Nat)
    (h2 : apiResolvesTransport areq ast = true) :
    (handleMCPSession req ts ftid .errorBeforeHeaders).action =
      .rpcError 500 (-32603) "Internal error processing request"
        (idOrNull req.body) ∧
    (handleMCPSession req ts ftid .errorAfterHeaders).action = .errorLogged ∧
    (sessionPhase areq ast atid .errorBeforeHeaders).action =
      .rpcError 500 (-32603) "Internal error processing request"
        (idOrNull areq.body) ∧
    (sessionPhase areq ast atid .errorAfterHeaders).action = .errorLogged :=
  ⟨(handleMCPSession_action_on_error req ts ftid h).1,
   (handleMCPSession_action_on_error req ts ftid h).2,
   (sessionPhase_action_on_error areq ast atid h2).1,
   (sessionPhase_action_on_error areq ast atid h2).2⟩

/-- C9 witness: a live session whose handling throws, before and after the
response was committed. -/
theorem C9_committed_response_safety_witness :
    (handleMCPSession ⟨some "s", some ⟨some "tools/list", some (.jnum 4), true⟩⟩
        [("s", ⟨0, some "s"⟩)] 9 .errorBeforeHeaders).action =
      .rpcError 500 (-32603) "Internal error processing request" (.jnum 4) ∧
    (handleMCPSession ⟨some "s", some ⟨some "tools/list", some (.jnum 4), true⟩⟩
        [("s", ⟨0, some "s"⟩)] 9 .errorAfterHeaders).action = .errorLogged ∧
    (sessionPhase ⟨"POST", none, some "v", some ⟨some "tools/list", some (.jnum 5), true⟩⟩
        ⟨[("v", 4)], [("v", 4)]⟩ 9 .errorBeforeHeaders).action =
      .rpcError 500 (-32603) "Internal error processing request" (.jnum 5) ∧
    (sessionPhase ⟨"POST", none, some "v", some ⟨some "tools/list", some (.jnum 5), true⟩⟩
        ⟨[("v", 4)], [("v", 4)]⟩ 9 .errorAfterHeaders).action = .errorLogged :=
  C9_committed_response_safety
    ⟨some "s", some ⟨some "tools/list", some (.jnum 4), true⟩⟩
    [("s", ⟨0, some "s"⟩)] 9 (by decide)
    ⟨"POST", none, some "v", some ⟨some "tools/list", some (.jnum 5), true⟩⟩
    ⟨[("v", 4)], [("v", 4)]⟩ 9 (by decide)

/-- C10: every structured rejection envelope (404, 400, and the 500 internal
error) carries the JSON-RPC id computed as the JS expression
`req.body?.id || null`; consequently a client id that is a falsy JSON value
(0, empty string, or null) is answered with id null instead of an echo. -/
theorem C10_rejection_id_or_null :
    (∀ (req : MCPRequest) (ts : TransportStorage Transport) (ftid : Nat)
        (o : HandleOutcome) (st : Nat) (c : Int) (m : String) (i : JValue),
      (handleMCPSession req ts ftid o).action = .rpcError st c m i →
        i = idOrNull req.body) ∧
    (∀ (areq : ApiRequest) (ast : ApiState) (atid : Nat) (ao : HandleOutcome)
        (st : Nat) (c : Int) (m : String) (i : JValue),
      (sessionPhase areq ast atid ao).action = .rpcError st c m i →
        i = idOrNull areq.body) ∧
    (∀ b : RequestBody,
      (b.id = some (.jnum 0) ∨ b.id = some (.jstr "") ∨ b.id = some .jnull) →
        idOrNull (some b) = .jnull) := by
  refine ⟨?_, ?_, ?_⟩
  · intro req ts ftid o st c m i h
    unfold handleMCPSession at h
    split at h
    · cases o <;> simp_all [finishWithTransport]
    · split at h
      · split at h
        · cases o <;> simp_all [finishWithTransport]
        · cases o <;> simp_all [finishWithTransport]
      · split at h
        · simp_all
        · simp_all
  · intro areq ast atid ao st c m i h
    unfold sessionPhase at h
    split at h
    · cases ao <;> simp_all [apiFinish]
    · split at h
      · split at h
        · cases ao <;> simp_all [apiFinish]
        · cases ao <;> simp_all [apiFinish]
      · split at h
        · simp_all
        · simp_all
  · intro b hb
    rcases hb with hb | hb | hb <;> simp [idOrNull, hb, JValue.truthy]

/-- C10 witness: a 404 rejection of a request whose id is the falsy value 0
carries id null. -/
theorem C10_rejection_id_or_null_witness :
    JValue.jnull = idOrNull (some ⟨some "tools/list", some (.jnum 0), true⟩) ∧
    idOrNull (some ⟨some "tools/list", some (.jnum 0), true⟩) = .jnull :=
  ⟨C10_rejection_id_or_null.1
      ⟨some "ghost", some ⟨some "tools/list", some (.jnum 0), true⟩⟩ [] 0 .ok
      404 (-32001)
      "Session not found. Please send an initialize request with the same mcp-session-id header."
      .jnull (by decide),
   C10_rejection_id_or_null.2.2 ⟨some "tools/list", some (.jnum 0), true⟩
     (Or.inl rfl)⟩

end PinataMCP
